import Mathlib

/-!
Shallow embedding of the Fitness-Tracker data-management program.

This file embeds `src/Git_project.py` (classes `FitnessActivity` and
`FitnessTracker`) in Lean 4 and proves the specification's claims about it.

Modelling conventions:
* Python floats (`duration`, `calories`, `distance`) are modelled as `Rat`;
  no claim depends on floating-point rounding.
* A Python `datetime` value is modelled as an integer count of seconds since
  the Unix epoch (`1970-01-01 00:00:00`); `datetime.timedelta(days=7)` is
  `604800` seconds and `timedelta(weeks=w)` is `604800 * w` seconds.
* The persisted JSON file is modelled as `Option (List ActivityDict)` stored
  in the tracker's `data_file` field: `none` means the file does not exist,
  `some l` means the file holds the serialized list `l`.  A record mapping
  (`ActivityDict`) models a JSON object over the six field names the program
  reads and writes (the persisted compatibility contract): each key may be
  absent (outer `Option`), and the optional fields may be present with a JSON
  `null` value (inner `Option`).
* Python exceptions are modelled with `Except` / `Option` results:
  `KeyError(k)` raised by `from_dict` becomes `LoadError.missingField k`, and
  the `ValueError` of `datetime.strptime` on an unparseable date makes the
  weekly-summary computation return `none`.
* Methods that may mutate the tracker are state-passing: they take the
  tracker and return the (possibly updated) tracker alongside their result.
-/

/-- Gregorian leap-year test, as used by Python's `datetime` calendar. -/
def isLeap (y : Nat) : Bool :=
  (y % 4 == 0 && y % 100 != 0) || y % 400 == 0

/-- Number of days in month `m` of year `y` (months are 1-based). -/
def daysInMonth (y m : Nat) : Nat :=
  if m = 2 then (if isLeap y then 29 else 28)
  else if m = 4 ∨ m = 6 ∨ m = 9 ∨ m = 11 then 30
  else 31

/-- Value of a run of decimal digit characters. -/
def digitsToNat (cs : List Char) : Nat :=
  cs.foldl (fun n c => 10 * n + (c.toNat - 48)) 0

/-- Split a character list at every `'-'`, keeping empty groups, exactly as
Python's split on a one-character separator does. -/
def splitDashes : List Char → List (List Char)
  | [] => [[]]
  | c :: rest =>
    if c = '-' then [] :: splitDashes rest
    else
      match splitDashes rest with
      | [] => [[c]]
      | g :: gs => (c :: g) :: gs

/-- Parse a `"%Y-%m-%d"` date string the way `datetime.strptime` does:
exactly four digits of year (years `0001`–`9999`; `datetime` rejects year 0),
one or two digits of month in `1..12`, one or two digits of day valid for the
month, with `-` separators and no trailing text.  Returns `(year, month, day)`
or `none` where Python raises `ValueError`. -/
def parseYMD (s : String) : Option (Nat × Nat × Nat) :=
  match splitDashes s.toList with
  | [ys, ms, ds] =>
    if ys.length = 4 ∧ ys.all Char.isDigit
        ∧ 1 ≤ ms.length ∧ ms.length ≤ 2 ∧ ms.all Char.isDigit
        ∧ 1 ≤ ds.length ∧ ds.length ≤ 2 ∧ ds.all Char.isDigit then
      let y := digitsToNat ys
      let m := digitsToNat ms
      let d := digitsToNat ds
      if 1 ≤ y ∧ 1 ≤ m ∧ m ≤ 12 ∧ 1 ≤ d ∧ d ≤ daysInMonth y m then
        some (y, m, d)
      else none
    else none
  | _ => none

/-- Days from the Unix epoch to civil date `(y, m, d)` (Howard Hinnant's
`days_from_civil` algorithm, specialised to years `≥ 1`). -/
def days_from_civil (y m d : Nat) : Int :=
  let yadj := if m ≤ 2 then y - 1 else y
  let era := yadj / 400
  let yoe := yadj % 400
  let mp := if m > 2 then m - 3 else m + 9
  let doy := (153 * mp + 2) / 5 + d - 1
  let doe := yoe * 365 + yoe / 4 - yoe / 100 + doy
  (↑(era * 146097 + doe) : Int) - 719468

/-- Civil date `(y, m, d)` of the day `z` days after the Unix epoch
(Howard Hinnant's `civil_from_days` algorithm). -/
def civil_from_days (z : Int) : Int × Nat × Nat :=
  let zs := z + 719468
  let era := Int.fdiv zs 146097
  let doe := zs - era * 146097
  let yoe := Int.fdiv (doe - Int.fdiv doe 1460 + Int.fdiv doe 36524
      - Int.fdiv doe 146096) 365
  let y := yoe + era * 400
  let doy := doe - (365 * yoe + Int.fdiv yoe 4 - Int.fdiv yoe 100)
  let mp := Int.fdiv (5 * doy + 2) 153
  let d := doy - Int.fdiv (153 * mp + 2) 5 + 1
  let m := mp + (if mp < 10 then 3 else (-9 : Int))
  ((if m ≤ 2 then y + 1 else y), m.toNat, d.toNat)

/-- Model of `datetime.strptime(s, "%Y-%m-%d")`: the midnight timestamp
(seconds since epoch) of the parsed date, or `none` where Python raises
`ValueError`. -/
def strptime (s : String) : Option Int :=
  (parseYMD s).map (fun ymd => 86400 * days_from_civil ymd.1 ymd.2.1 ymd.2.2)

/-- Zero-pad the decimal representation of `n` to width `w`. -/
def padNum (n w : Nat) : String :=
  let s := toString n
  String.mk (List.replicate (w - s.length) '0') ++ s

/-- Model of `dt.strftime("%Y-%m-%d")` for a timestamp `ts` in seconds since
epoch: format the calendar date of `ts` (its day obtained by flooring to
whole days, as a timestamp's date is). -/
def strftimeDate (ts : Int) : String :=
  let ymd := civil_from_days (Int.fdiv ts 86400)
  padNum ymd.1.toNat 4 ++ "-" ++ padNum ymd.2.1 2 ++ "-" ++ padNum ymd.2.2 2

/-- One logged exercise event (class `FitnessActivity`, lines 6–16). -/
structure FitnessActivity where
  activity_type : String
  duration : Rat
  calories : Rat
  distance : Option Rat
  date : String
  notes : Option String
deriving DecidableEq

/-- Constructor `FitnessActivity.__init__` (lines 7–16).  `now` models
`datetime.datetime.now().strftime("%Y-%m-%d")`, the current local date.
Python's `date if date else ...` keeps `date` exactly when it is truthy: a
missing date (`none`, Python `None`) or an empty string is replaced by `now`;
`distance` and `notes` are stored as given, with no truthiness test. -/
def FitnessActivity.init (now : String) (activity_type : String)
    (duration calories : Rat) (date : Option String) (distance : Option Rat)
    (notes : Option String) : FitnessActivity :=
  { activity_type := activity_type
    duration := duration
    calories := calories
    distance := distance
    notes := notes
    date := match date with
            | some d => if d = "" then now else d
            | none => now }

/-- A record mapping as persisted by the program: a JSON object over the six
field names of `to_dict` (the only compatibility contract, spec §6).  The
outer `Option` is key presence; for the optional fields the inner `Option`
models a JSON `null` value (Python `None`). -/
structure ActivityDict where
  activity_type : Option String
  duration : Option Rat
  calories : Option Rat
  distance : Option (Option Rat)
  date : Option (Option String)
  notes : Option (Option String)
deriving DecidableEq

/-- Method `FitnessActivity.to_dict` (lines 18–27): every key is present; an unset
`distance`/`notes` serializes as an explicit `null`, not an omitted key. -/
def FitnessActivity.to_dict (a : FitnessActivity) : ActivityDict :=
  { activity_type := some a.activity_type
    duration := some a.duration
    calories := some a.calories
    distance := some a.distance
    date := some (some a.date)
    notes := some a.notes }

/-- The error raised when a required key is absent: Python's `KeyError`,
the spec's `MissingField` error, carrying the missing field name. -/
inductive LoadError where
  | missingField : String → LoadError
deriving DecidableEq

/-- Classmethod `FitnessActivity.from_dict` (lines 29–39).  `data['activity_type']`,
`data['duration']`, `data['calories']` raise `KeyError` when absent (keyword
arguments are evaluated in source order, so the first absent required key in
that order is reported); `data.get(k)` yields `None` for an absent key or a
`null` value (`Option.join`), and the constructor is then applied. -/
def FitnessActivity.from_dict (now : String) (data : ActivityDict) :
    Except LoadError FitnessActivity :=
  match data.activity_type with
  | none => .error (.missingField "activity_type")
  | some t =>
    match data.duration with
    | none => .error (.missingField "duration")
    | some dur =>
      match data.calories with
      | none => .error (.missingField "calories")
      | some cal =>
        .ok (FitnessActivity.init now t dur cal data.date.join
          data.distance.join data.notes.join)

/-- The activity store (class `FitnessTracker`, lines 41–108).  `data_file`
is the content of the backing file (`none`: the file does not exist);
`activities` is the in-memory ordered sequence. -/
structure FitnessTracker where
  data_file : Option (List ActivityDict)
  activities : List FitnessActivity
deriving DecidableEq

/-- Method `FitnessTracker.save_data` (lines 98–101): overwrite the backing file
with the serialized full sequence. -/
def FitnessTracker.save_data (t : FitnessTracker) : FitnessTracker :=
  { t with data_file := some (t.activities.map FitnessActivity.to_dict) }

/-- The list comprehension of `load_data` (line 108): rebuild each record in
order; the first `KeyError` aborts the whole load (no per-record recovery). -/
def loadAll (now : String) : List ActivityDict →
    Except LoadError (List FitnessActivity)
  | [] => .ok []
  | d :: rest =>
    match FitnessActivity.from_dict now d with
    | .error e => .error e
    | .ok a =>
      match loadAll now rest with
      | .error e => .error e
      | .ok tail => .ok (a :: tail)

/-- Method `FitnessTracker.load_data` (lines 103–108): if the backing file exists,
replace the in-memory sequence with its full contents; otherwise leave the
state unchanged. -/
def FitnessTracker.load_data (now : String) (t : FitnessTracker) :
    Except LoadError FitnessTracker :=
  match t.data_file with
  | none => .ok t
  | some data =>
    match loadAll now data with
    | .error e => .error e
    | .ok acts => .ok { t with activities := acts }

/-- Method `FitnessTracker.add_activity` (lines 47–50): append, then persist. -/
def FitnessTracker.add_activity (a : FitnessActivity) (t : FitnessTracker) :
    FitnessTracker :=
  FitnessTracker.save_data { t with activities := t.activities ++ [a] }

/-- Method `FitnessTracker.delete_activity` (lines 52–58): if `0 <= index < len`,
delete that element (`del self.activities[index]`), persist and return
`True`; otherwise return `False` with the state untouched. -/
def FitnessTracker.delete_activity (index : Int) (t : FitnessTracker) :
    Bool × FitnessTracker :=
  if 0 ≤ index ∧ index < (t.activities.length : Int) then
    (true, FitnessTracker.save_data
      { t with activities := t.activities.eraseIdx index.toNat })
  else
    (false, t)

/-- Model of Python's `str.lower()` (character-wise lower-casing; the
activity types this program compares are ASCII). -/
def pyLower (s : String) : String :=
  String.mk (s.data.map Char.toLower)

/-- Method `FitnessTracker.get_activities_by_date` (lines 60–62). -/
def FitnessTracker.get_activities_by_date (date : String)
    (t : FitnessTracker) : List FitnessActivity × FitnessTracker :=
  (t.activities.filter (fun a => a.date == date), t)

/-- Method `FitnessTracker.get_activities_by_type` (lines 64–67): compare
`activity_type` lower-cased on both sides. -/
def FitnessTracker.get_activities_by_type (activity_type : String)
    (t : FitnessTracker) : List FitnessActivity × FitnessTracker :=
  (t.activities.filter
    (fun a => pyLower a.activity_type == pyLower activity_type), t)

/-- Method `FitnessTracker.get_total_calories` (lines 69–71). -/
def FitnessTracker.get_total_calories (t : FitnessTracker) :
    Rat × FitnessTracker :=
  ((t.activities.map FitnessActivity.calories).sum, t)

/-- Method `FitnessTracker.get_total_duration` (lines 73–75). -/
def FitnessTracker.get_total_duration (t : FitnessTracker) :
    Rat × FitnessTracker :=
  ((t.activities.map FitnessActivity.duration).sum, t)

/-- The list comprehension of `get_weekly_summary` (lines 82–85): keep the
activities whose parsed date satisfies the predicate `p`; `strptime` is
evaluated for every element, and any `ValueError` aborts the whole call. -/
def weeklyFilter (p : Int → Bool) : List FitnessActivity →
    Option (List FitnessActivity)
  | [] => some []
  | a :: rest =>
    match strptime a.date, weeklyFilter p rest with
    | some d, some l => some (if p d then a :: l else l)
    | _, _ => none

/-- The result dictionary of `get_weekly_summary` (lines 90–96). -/
structure WeeklySummary where
  start_date : String
  end_date : String
  total_calories : Rat
  total_duration : Rat
  activity_count : Nat
deriving DecidableEq

/-- The local list `weekly_activities` of `get_weekly_summary` (lines
79–85): `now` models `datetime.datetime.now()` as a timestamp (seconds since
epoch, including the time of day); `end_date = now - weeks_ago` weeks and
`start_date = end_date - 7` days are timestamps, and each activity's `date`
is parsed to a midnight timestamp and compared with
`start_date <= d <= end_date`. -/
def FitnessTracker.weekly_activities (now weeks_ago : Int)
    (t : FitnessTracker) : Option (List FitnessActivity) :=
  let end_date := now - weeks_ago * 604800
  let start_date := end_date - 604800
  weeklyFilter (fun d => decide (start_date ≤ d) && decide (d ≤ end_date))
    t.activities

/-- Method `FitnessTracker.get_weekly_summary` (lines 77–96): aggregate the
selected `weekly_activities` into the result dictionary. -/
def FitnessTracker.get_weekly_summary (now weeks_ago : Int)
    (t : FitnessTracker) : Option (WeeklySummary × FitnessTracker) :=
  let end_date := now - weeks_ago * 604800
  let start_date := end_date - 604800
  (t.weekly_activities now weeks_ago).map
    (fun weekly =>
      ({ start_date := strftimeDate start_date
         end_date := strftimeDate end_date
         total_calories := (weekly.map FitnessActivity.calories).sum
         total_duration := (weekly.map FitnessActivity.duration).sum
         activity_count := weekly.length }, t))

example : days_from_civil 1970 1 1 = 0 := by decide

example : strptime "2024-01-08" = some (86400 * days_from_civil 2024 1 8) := by
  decide

example : strftimeDate (86400 * days_from_civil 2024 1 8 + 43200) =
    "2024-01-08" := by decide

/-! Concrete values used by witnesses and counterexamples. -/

/-- A sample activity. -/
def exRun : FitnessActivity :=
  { activity_type := "Running", duration := 30, calories := 300,
    distance := none, date := "2024-01-08", notes := none }

/-- A second sample activity, with mixed-case type and optional fields set. -/
def exSwim : FitnessActivity :=
  { activity_type := "SWIMMING", duration := 45, calories := 400,
    distance := some 2, date := "2024-01-10", notes := some "laps" }

/-- A sample store holding the two sample activities. -/
def exTracker : FitnessTracker :=
  { data_file := none, activities := [exRun, exSwim] }

/-- A store holding only `exRun`, for the weekly-window checks. -/
def exWTracker : FitnessTracker :=
  { data_file := none, activities := [exRun] }

/-- Noon of 2024-01-15 as a timestamp (a `now` whose time of day is not
midnight). -/
def exNoon : Int := 86400 * days_from_civil 2024 1 15 + 43200

/-- Midnight of 2024-01-15 as a timestamp. -/
def exMidnight : Int := 86400 * days_from_civil 2024 1 15

/-- A persisted record missing the required `duration` key. -/
def exBadDict : ActivityDict :=
  { activity_type := some "Running", duration := none, calories := some 250,
    distance := none, date := none, notes := none }

/-- A store whose backing file contains the malformed record. -/
def exBadTracker : FitnessTracker :=
  { data_file := some [exBadDict], activities := [] }

/-! Helper lemmas shared by the claim theorems. -/

/-- Converting an activity to its mapping and back reconstructs it, provided
its stored date is not the empty string (the constructor would replace an
empty date by the current date; the constructor itself never stores an empty
date, so every activity the program builds satisfies the hypothesis). -/
theorem from_dict_to_dict_aux (a : FitnessActivity) (now : String)
    (h : a.date ≠ "") :
    FitnessActivity.from_dict now a.to_dict = .ok a := by
  cases a with
  | mk ty dur cal dist date notes =>
    simp only [ne_eq] at h
    simp [FitnessActivity.from_dict, FitnessActivity.to_dict,
      FitnessActivity.init, Option.join, h]

/-- Loading back a serialized list reconstructs it element by element. -/
theorem loadAll_map_to_dict (now : String) (acts : List FitnessActivity)
    (h : ∀ a ∈ acts, a.date ≠ "") :
    loadAll now (acts.map FitnessActivity.to_dict) = .ok acts := by
  induction acts with
  | nil => rfl
  | cons a rest ih =>
    have ha := h a (by simp)
    have hrest : ∀ b ∈ rest, b.date ≠ "" := fun b hb => h b (by simp [hb])
    simp [loadAll, from_dict_to_dict_aux a now ha, ih hrest]

/-- If any record of a list fails to reconstruct, the whole load fails. -/
theorem loadAll_error_of_mem (now : String) (l : List ActivityDict)
    (m : ActivityDict) (hm : m ∈ l) (e0 : LoadError)
    (he : FitnessActivity.from_dict now m = .error e0) :
    ∃ e, loadAll now l = .error e := by
  induction l with
  | nil => cases hm
  | cons d rest ih =>
    rcases List.mem_cons.mp hm with rfl | hm2
    · exact ⟨e0, by simp [loadAll, he]⟩
    · cases hfd : FitnessActivity.from_dict now d with
      | error e => exact ⟨e, by simp [loadAll, hfd]⟩
      | ok a =>
        obtain ⟨e, hrec⟩ := ih hm2
        exact ⟨e, by simp [loadAll, hfd, hrec]⟩

/-- When every date parses, the weekly comprehension succeeds and returns the
filter of the sequence by the window predicate applied to the parsed date. -/
theorem weeklyFilter_parse (p : Int → Bool) (acts : List FitnessActivity)
    (h : ∀ a ∈ acts, (strptime a.date).isSome) :
    weeklyFilter p acts =
      some (acts.filter (fun a => ((strptime a.date).map p).getD false)) := by
  induction acts with
  | nil => rfl
  | cons a rest ih =>
    obtain ⟨d, hd⟩ := Option.isSome_iff_exists.mp (h a (by simp))
    have hrest := ih (fun b hb => h b (by simp [hb]))
    by_cases hp : p d
    · simp [weeklyFilter, hd, hrest, List.filter_cons, hp]
    · simp [weeklyFilter, hd, hrest, List.filter_cons, hp]

/-! Claim theorems. -/

/-- C2: for every Activity `a` (with the constructor invariant that the
stored date is never the empty string — the constructor replaces a falsy
date by the current date, so no activity the program builds has an empty
date), `from_dict (to_dict a)` yields an activity whose six fields all equal
those of `a`: the conversion to the flat mapping and back is lossless. -/
theorem roundtrip_to_dict_from_dict (a : FitnessActivity) (now : String)
    (h : a.date ≠ "") :
    FitnessActivity.from_dict now a.to_dict = .ok a :=
  from_dict_to_dict_aux a now h

/-- Witness for C2 at a concrete activity. -/
theorem roundtrip_to_dict_from_dict_witness :
    exRun.date ≠ "" ∧
      FitnessActivity.from_dict "2024-01-15" exRun.to_dict = .ok exRun :=
  ⟨by decide, roundtrip_to_dict_from_dict exRun "2024-01-15" (by decide)⟩

/-- C3: for every store and every index `i` with `i < 0` or
`i >= length`, `delete_activity i` returns failure (`false`) without an
exception and leaves the whole state — in particular the activity sequence,
its length and every element — unchanged. -/
theorem delete_activity_out_of_range (t : FitnessTracker) (i : Int)
    (h : i < 0 ∨ (t.activities.length : Int) ≤ i) :
    FitnessTracker.delete_activity i t = (false, t) := by
  have hcond : ¬(0 ≤ i ∧ i < (t.activities.length : Int)) := by omega
  simp [FitnessTracker.delete_activity, hcond]

/-- Witness for C3: deleting index 5 from a two-element store fails and
changes nothing. -/
theorem delete_activity_out_of_range_witness :
    ((5 : Int) < 0 ∨ ((exTracker.activities.length : Int) ≤ 5)) ∧
      FitnessTracker.delete_activity 5 exTracker = (false, exTracker) :=
  ⟨by decide, delete_activity_out_of_range exTracker 5 (by decide)⟩

/-- C7: for every sequence of length `n` and index `k` with `0 <= k < n`,
`delete_activity k` returns success and yields a sequence of length `n - 1`
in which every position below `k` is unchanged and the element formerly at
any index `j + 1` with `j >= k` is now at index `j` (in particular the
former `k + 1` is now at `k`). -/
theorem delete_activity_shifts (t : FitnessTracker) (k : Nat)
    (h : k < t.activities.length) :
    (FitnessTracker.delete_activity (k : Int) t).1 = true ∧
    (FitnessTracker.delete_activity (k : Int) t).2.activities.length =
      t.activities.length - 1 ∧
    (∀ j : Nat, j < k →
      (FitnessTracker.delete_activity (k : Int) t).2.activities[j]? =
        t.activities[j]?) ∧
    (∀ j : Nat, k ≤ j →
      (FitnessTracker.delete_activity (k : Int) t).2.activities[j]? =
        t.activities[j + 1]?) := by
  have hcond : (0 : Int) ≤ (k : Int) ∧
      (k : Int) < (t.activities.length : Int) := by omega
  have hdel : FitnessTracker.delete_activity (k : Int) t =
      (true, FitnessTracker.save_data
        { t with activities := t.activities.eraseIdx k }) := by
    simp [FitnessTracker.delete_activity, hcond]
  rw [hdel]
  refine ⟨rfl, ?_, ?_, ?_⟩
  · simpa [FitnessTracker.save_data] using List.length_eraseIdx_of_lt h
  · intro j hj
    simp [FitnessTracker.save_data, List.getElem?_eraseIdx, hj]
  · intro j hj
    simp [FitnessTracker.save_data, List.getElem?_eraseIdx,
      Nat.not_lt.mpr hj]

/-- Witness for C7: deleting index 0 from the two-element store succeeds,
leaves one element, and moves the former index 1 to index 0. -/
theorem delete_activity_shifts_witness :
    (0 < exTracker.activities.length) ∧
    ((FitnessTracker.delete_activity ((0 : Nat) : Int) exTracker).1 = true ∧
    (FitnessTracker.delete_activity ((0 : Nat) : Int) exTracker).2.activities.length =
      exTracker.activities.length - 1 ∧
    (∀ j : Nat, j < 0 →
      (FitnessTracker.delete_activity ((0 : Nat) : Int) exTracker).2.activities[j]? =
        exTracker.activities[j]?) ∧
    (∀ j : Nat, 0 ≤ j →
      (FitnessTracker.delete_activity ((0 : Nat) : Int) exTracker).2.activities[j]? =
        exTracker.activities[j + 1]?)) :=
  ⟨by decide, delete_activity_shifts exTracker 0 (by decide)⟩

/-- C8 (implicit): constructing an activity with the empty string as its
date behaves exactly as if the date were omitted — the constructor replaces
it by the current date `now`, so an empty-string date is never stored as
given. -/
theorem init_empty_date_defaults (now ty : String) (dur cal : Rat)
    (dist : Option Rat) (nts : Option String) :
    FitnessActivity.init now ty dur cal (some "") dist nts =
      FitnessActivity.init now ty dur cal none dist nts ∧
    (FitnessActivity.init now ty dur cal (some "") dist nts).date = now := by
  constructor <;> simp [FitnessActivity.init]

/-- C4: for every in-memory sequence of activities (all of which carry the
constructor invariant of a non-empty date string), running `load_data`
immediately after `save_data` succeeds and yields a sequence equal — same
length, same order, same field values — to the one just persisted. -/
theorem reload_after_persist (t : FitnessTracker) (now : String)
    (h : ∀ a ∈ t.activities, a.date ≠ "") :
    ∃ t2, FitnessTracker.load_data now t.save_data = .ok t2 ∧
      t2.activities = t.activities := by
  refine ⟨t.save_data, ?_, rfl⟩
  have hload := loadAll_map_to_dict now t.activities h
  simp [FitnessTracker.load_data, FitnessTracker.save_data, hload]

/-- Witness for C4 at a concrete two-element store. -/
theorem reload_after_persist_witness :
    (∀ a ∈ exTracker.activities, a.date ≠ "") ∧
    ∃ t2, FitnessTracker.load_data "2024-01-15" exTracker.save_data = .ok t2 ∧
      t2.activities = exTracker.activities :=
  ⟨by decide, reload_after_persist exTracker "2024-01-15" (by decide)⟩

/-- C5: `from_dict` fails, with a `missingField` error naming a required
key, exactly when one of the required keys `activity_type`, `duration`,
`calories` is absent; such a failure makes a whole `load_data` over a file
containing the malformed record fail (no per-record recovery); and the
optional keys `distance`, `date`, `notes` default to absent (resp. the
current date, per the constructor rule) when missing. -/
theorem from_dict_missing_required (now : String) (m : ActivityDict) :
    ((∃ e, FitnessActivity.from_dict now m = .error e) ↔
      (m.activity_type = none ∨ m.duration = none ∨ m.calories = none)) ∧
    (∀ f, FitnessActivity.from_dict now m = .error (.missingField f) →
      (f = "activity_type" ∧ m.activity_type = none) ∨
      (f = "duration" ∧ m.duration = none) ∨
      (f = "calories" ∧ m.calories = none)) ∧
    (∀ t l, t.data_file = some l → m ∈ l →
      (m.activity_type = none ∨ m.duration = none ∨ m.calories = none) →
      ∃ e, FitnessTracker.load_data now t = .error e) ∧
    (∀ ty dur cal, m.activity_type = some ty → m.duration = some dur →
      m.calories = some cal →
      ∃ a, FitnessActivity.from_dict now m = .ok a ∧
        (m.distance = none → a.distance = none) ∧
        (m.notes = none → a.notes = none) ∧
        (m.date = none → a.date = now)) := by
  obtain ⟨mat, mdur, mcal, mdist, mdate, mnotes⟩ := m
  refine ⟨?_, ?_, ?_, ?_⟩
  · cases mat <;> cases mdur <;> cases mcal <;>
      simp [FitnessActivity.from_dict]
  · intro f hf
    cases mat <;> cases mdur <;> cases mcal <;>
      simp_all [FitnessActivity.from_dict]
  · intro t l hfile hm hmiss
    have herr : ∃ e0, FitnessActivity.from_dict now
        ⟨mat, mdur, mcal, mdist, mdate, mnotes⟩ = .error e0 := by
      cases mat <;> cases mdur <;> cases mcal <;>
        simp_all [FitnessActivity.from_dict]
    obtain ⟨e0, he0⟩ := herr
    obtain ⟨e, he⟩ := loadAll_error_of_mem now l _ hm e0 he0
    exact ⟨e, by simp [FitnessTracker.load_data, hfile, he]⟩
  · rintro ty dur cal rfl rfl rfl
    refine ⟨_, rfl, ?_, ?_, ?_⟩ <;> rintro rfl <;>
      simp [FitnessActivity.init, Option.join]

/-- Witness for C5: a file holding a record without the `duration` key makes
the whole load fail. -/
theorem from_dict_missing_required_witness :
    (exBadTracker.data_file = some [exBadDict] ∧ exBadDict ∈ [exBadDict] ∧
      (exBadDict.activity_type = none ∨ exBadDict.duration = none ∨
        exBadDict.calories = none)) ∧
    ∃ e, FitnessTracker.load_data "2024-01-15" exBadTracker = .error e :=
  ⟨⟨rfl, by simp, Or.inr (Or.inl rfl)⟩,
    (from_dict_missing_required "2024-01-15" exBadDict).2.2.1 exBadTracker
      [exBadDict] rfl (by simp) (Or.inr (Or.inl rfl))⟩

/-- C6: `get_activities_by_type q` returns exactly the activities whose
`activity_type` equals `q` under case-insensitive (lower-cased) comparison,
and any two query strings with the same lower-casing — i.e. differing only
in letter case — give identical results, whatever the case of the stored
values. -/
theorem get_activities_by_type_case_insensitive (t : FitnessTracker)
    (q q1 q2 : String) :
    (∀ a, a ∈ (FitnessTracker.get_activities_by_type q t).1 ↔
      (a ∈ t.activities ∧ pyLower a.activity_type = pyLower q)) ∧
    (pyLower q1 = pyLower q2 →
      FitnessTracker.get_activities_by_type q1 t =
        FitnessTracker.get_activities_by_type q2 t) := by
  constructor
  · intro a
    simp [FitnessTracker.get_activities_by_type, List.mem_filter]
  · intro h
    simp [FitnessTracker.get_activities_by_type, h]

/-- Witness for C6: `"running"` and `"RUNNING"` return identical results on
the mixed-case store. -/
theorem get_activities_by_type_case_insensitive_witness :
    pyLower "running" = pyLower "RUNNING" ∧
    FitnessTracker.get_activities_by_type "running" exTracker =
      FitnessTracker.get_activities_by_type "RUNNING" exTracker :=
  ⟨by decide,
    (get_activities_by_type_case_insensitive exTracker "running" "running"
      "RUNNING").2 (by decide)⟩

/-- C9 (implicit): `get_activities_by_type` returns its matches in original
insertion order — the result is a sublist (subsequence, same relative order)
of the stored sequence, of length equal to the number of matches, containing
exactly the matching elements. -/
theorem get_activities_by_type_order (t : FitnessTracker) (q : String) :
    (FitnessTracker.get_activities_by_type q t).1.Sublist t.activities ∧
    (FitnessTracker.get_activities_by_type q t).1.length =
      t.activities.countP
        (fun a => pyLower a.activity_type == pyLower q) ∧
    (∀ a, a ∈ (FitnessTracker.get_activities_by_type q t).1 ↔
      (a ∈ t.activities ∧ pyLower a.activity_type = pyLower q)) := by
  refine ⟨List.filter_sublist t.activities, ?_, ?_⟩
  · simp [FitnessTracker.get_activities_by_type,
      List.countP_eq_length_filter]
  · intro a
    simp [FitnessTracker.get_activities_by_type, List.mem_filter]

/-- C10 (implicit): every query operation is a pure read — for every store
state, `get_activities_by_date`, `get_activities_by_type`,
`get_total_calories`, `get_total_duration` and `get_weekly_summary` return
the store state unchanged (same activity sequence and same backing-file
content). -/
theorem queries_are_pure (t : FitnessTracker) (date q : String)
    (now weeks_ago : Int) :
    (FitnessTracker.get_activities_by_date date t).2 = t ∧
    (FitnessTracker.get_activities_by_type q t).2 = t ∧
    (FitnessTracker.get_total_calories t).2 = t ∧
    (FitnessTracker.get_total_duration t).2 = t ∧
    (FitnessTracker.get_weekly_summary now weeks_ago t).map Prod.snd =
      (FitnessTracker.get_weekly_summary now weeks_ago t).map (fun _ => t) := by
  refine ⟨rfl, rfl, rfl, rfl, ?_⟩
  cases h : FitnessTracker.weekly_activities now weeks_ago t <;>
    simp [FitnessTracker.get_weekly_summary, h]

/-- Counterexample to C1 as stated: at `now` = noon 2024-01-15 (a `now`
whose time of day is not midnight) and `weeks_ago = 0`, the activity dated
`"2024-01-08"` — exactly 7 days before `now`, as witnessed by formatting
`now - 7 days` — is NOT selected: the weekly list is empty and the summary
counts 0 activities, because `start_date = now - 7 days` still carries
noon's time of day and lies strictly after midnight of 2024-01-08. -/
theorem weekly_boundary_counterexample :
    strftimeDate exNoon = "2024-01-15" ∧
    strftimeDate (exNoon - 0 * 604800 - 604800) = "2024-01-08" ∧
    exRun.date = "2024-01-08" ∧
    FitnessTracker.weekly_activities exNoon 0 exWTracker = some [] ∧
    (FitnessTracker.get_weekly_summary exNoon 0 exWTracker).map
      (fun r => r.1.activity_count) = some 0 := by
  refine ⟨by decide, by decide, by decide, by decide, by decide⟩

/-- C1 (amended): `get_weekly_summary` selects exactly the activities whose
parsed date `d` (a midnight timestamp) satisfies `start <= d <= end` with
`end = now - weeks_ago*7 days` and `start = end - 7 days`, inclusive at both
ends as timestamps — `now` carries its time of day `τ`.  Consequently, with
`weeks_ago = 0` and `now = M + τ` (`M` the midnight of `now`'s calendar day,
`0 ≤ τ < 86400`), an activity dated exactly 7 days before `now` (parsed date
`M - 7 days`) is included iff `τ = 0`, i.e. iff `now` is exactly midnight,
and an activity dated 8 days before `now` is always excluded. -/
theorem get_weekly_summary_window (t : FitnessTracker) (now weeks_ago : Int)
    (hp : ∀ a ∈ t.activities, (strptime a.date).isSome) :
    ∃ l, FitnessTracker.weekly_activities now weeks_ago t = some l ∧
      FitnessTracker.get_weekly_summary now weeks_ago t = some
        ({ start_date := strftimeDate (now - weeks_ago * 604800 - 604800)
           end_date := strftimeDate (now - weeks_ago * 604800)
           total_calories := (l.map FitnessActivity.calories).sum
           total_duration := (l.map FitnessActivity.duration).sum
           activity_count := l.length }, t) ∧
      (∀ a, a ∈ l ↔ a ∈ t.activities ∧ ∃ d, strptime a.date = some d ∧
        now - weeks_ago * 604800 - 604800 ≤ d ∧
        d ≤ now - weeks_ago * 604800) ∧
      (weeks_ago = 0 → ∀ M τ : Int, now = M + τ → 0 ≤ τ → τ < 86400 →
        ∀ a ∈ t.activities,
          (strptime a.date = some (M - 604800) → (a ∈ l ↔ τ = 0)) ∧
          (strptime a.date = some (M - 691200) → a ∉ l)) := by
  have hfil := weeklyFilter_parse
    (fun d => decide (now - weeks_ago * 604800 - 604800 ≤ d) &&
      decide (d ≤ now - weeks_ago * 604800)) t.activities hp
  have hwa : FitnessTracker.weekly_activities now weeks_ago t =
      some (t.activities.filter
        (fun a => ((strptime a.date).map
          (fun d => decide (now - weeks_ago * 604800 - 604800 ≤ d) &&
            decide (d ≤ now - weeks_ago * 604800))).getD false)) := hfil
  refine ⟨_, hwa, ?_, ?_, ?_⟩
  · have hgs : FitnessTracker.get_weekly_summary now weeks_ago t =
        (FitnessTracker.weekly_activities now weeks_ago t).map
          (fun weekly =>
            ({ start_date := strftimeDate (now - weeks_ago * 604800 - 604800)
               end_date := strftimeDate (now - weeks_ago * 604800)
               total_calories := (weekly.map FitnessActivity.calories).sum
               total_duration := (weekly.map FitnessActivity.duration).sum
               activity_count := weekly.length }, t)) := rfl
    rw [hgs, hwa]
    rfl
  · intro a
    rw [List.mem_filter]
    constructor
    · rintro ⟨ha, hpred⟩
      obtain ⟨d, hd⟩ := Option.isSome_iff_exists.mp (hp a ha)
      rw [hd] at hpred
      simp at hpred
      exact ⟨ha, d, hd, by omega, by omega⟩
    · rintro ⟨ha, d, hd, h1, h2⟩
      refine ⟨ha, ?_⟩
      rw [hd]
      simp
      omega
  · rintro rfl M τ hnow hτ0 hτlt a ha
    constructor
    · intro hd7
      constructor
      · intro hmem
        rw [List.mem_filter] at hmem
        obtain ⟨-, hpred⟩ := hmem
        rw [hd7] at hpred
        simp at hpred
        omega
      · intro hτ
        rw [List.mem_filter]
        refine ⟨ha, ?_⟩
        rw [hd7]
        simp
        omega
    · intro hd8 hmem
      rw [List.mem_filter] at hmem
      obtain ⟨-, hpred⟩ := hmem
      rw [hd8] at hpred
      simp at hpred
      omega

/-- Witness for C1 (amended) at midnight 2024-01-15 over the one-activity
store dated 2024-01-08 (the inclusive 7-day boundary at exactly midnight). -/
theorem get_weekly_summary_window_witness :
    ∃ l, FitnessTracker.weekly_activities exMidnight 0 exWTracker = some l ∧
      FitnessTracker.get_weekly_summary exMidnight 0 exWTracker = some
        ({ start_date := strftimeDate (exMidnight - 0 * 604800 - 604800)
           end_date := strftimeDate (exMidnight - 0 * 604800)
           total_calories := (l.map FitnessActivity.calories).sum
           total_duration := (l.map FitnessActivity.duration).sum
           activity_count := l.length }, exWTracker) ∧
      (∀ a, a ∈ l ↔ a ∈ exWTracker.activities ∧ ∃ d, strptime a.date = some d ∧
        exMidnight - 0 * 604800 - 604800 ≤ d ∧
        d ≤ exMidnight - 0 * 604800) ∧
      ((0 : Int) = 0 → ∀ M τ : Int, exMidnight = M + τ → 0 ≤ τ → τ < 86400 →
        ∀ a ∈ exWTracker.activities,
          (strptime a.date = some (M - 604800) → (a ∈ l ↔ τ = 0)) ∧
          (strptime a.date = some (M - 691200) → a ∉ l)) :=
  get_weekly_summary_window exWTracker exMidnight 0 (by decide)
